import Mathlib

/-!
Verification of the ng-headless-datagrid engine: a shallow embedding of
`GridStateService`, `VirtualizationService`, `SmartFilteringService` and
`ColumnManagementService`, with theorems settling the frozen claims about
sorting, filtering, pagination, selection, virtualization, column removal
and state import.
-/

namespace NgGrid

/-- Model of the JavaScript primitive values the grid handles in cells,
filter values and row ids. `vNull` models both `null` and `undefined`
(every code path the claims touch treats the two alike: `value == null`,
`??` and the `?? index` fallback). Dates are not modelled; no claim uses
them. -/
inductive JsValue where
  | vNull : JsValue
  | vNum : Int → JsValue
  | vStr : String → JsValue
  | vBool : Bool → JsValue
  deriving DecidableEq, Repr

/-! ## VirtualizationService

Source: `VirtualizationService` (part_001 lines 18-60). The five input
signals are modelled as a record of natural numbers (the claims restrict
attention to non-negative `scrollTop`/`overscan`/`totalItems` and positive
`itemHeight`/`containerHeight`, for which JS float arithmetic coincides
with exact integer arithmetic). `visibleEndIndex` is an `Int` because the
source computes `totalItems - 1`, which is `-1` when `totalItems = 0`. -/

structure VirtInput where
  containerHeight : Nat
  itemHeight : Nat
  overscan : Nat
  scrollTop : Nat
  totalItems : Nat
  deriving DecidableEq, Repr

/-- `Math.ceil(containerHeight / itemHeight)` for exact naturals. -/
def visibleItems (v : VirtInput) : Nat :=
  (v.containerHeight + v.itemHeight - 1) / v.itemHeight

/-- `Math.max(0, Math.floor(scrollTop / itemHeight) - overscan)`; truncated
natural subtraction is exactly the `Math.max 0` clamp. -/
def visibleStartIndex (v : VirtInput) : Nat :=
  v.scrollTop / v.itemHeight - v.overscan

/-- `Math.min(totalItems - 1, visibleStartIndex + visibleItems + overscan * 2)`. -/
def visibleEndIndex (v : VirtInput) : Int :=
  min ((v.totalItems : Int) - 1)
    ((visibleStartIndex v : Int) + (visibleItems v : Int) + 2 * (v.overscan : Int))

/-- `totalItems * itemHeight`. -/
def totalHeight (v : VirtInput) : Nat := v.totalItems * v.itemHeight

/-- `visibleStartIndex * itemHeight`. -/
def offsetY (v : VirtInput) : Nat := visibleStartIndex v * v.itemHeight

/-- The spec scenario input for virtualization. -/
def virtScenario : VirtInput :=
  { containerHeight := 400, itemHeight := 40, overscan := 5,
    scrollTop := 0, totalItems := 100 }

/-! ## GridStateService: data model

Source: `GridStateService` (part_001 lines 1324-1788). A data record is an
association list of field names to `JsValue`s; a missing field reads as
`vNull` (JS `undefined`). -/

abbrev Record := List (String × JsValue)

/-- JS property read `obj[k]`: `undefined` (here `vNull`) when absent. -/
def readField (r : Record) (k : String) : JsValue :=
  (List.lookup k r).getD JsValue.vNull

/-- One step of the `??` chain in `getRowId`: a field counts only when it is
present and not null/undefined. -/
def coalesceField (r : Record) (k : String) : Option JsValue :=
  match List.lookup k r with
  | some JsValue.vNull => none
  | some v => some v
  | none => none

/-- `getRowId` (part_001 lines 1652-1659): `obj.id ?? obj._id ?? obj.uuid ??
index`. Records are always objects, so the `typeof` guard is satisfied. -/
def getRowId (item : Record) (index : Nat) : JsValue :=
  (((coalesceField item "id").orElse fun _ =>
    (coalesceField item "_id").orElse fun _ =>
      coalesceField item "uuid")).getD (JsValue.vNum index)

/-- Column accessor: the source accepts a field name or a function. -/
inductive Accessor where
  | key : String → Accessor
  | fn : (Record → JsValue) → Accessor

/-- `GridColumn`: the fields the engine reads (id, accessor, custom sort
comparator, custom filter predicate). -/
structure GridColumn where
  id : String
  accessor : Option Accessor := none
  sortCompareFn : Option (JsValue → JsValue → Int) := none
  filterFn : Option (JsValue → JsValue → Bool) := none

inductive SortDirection where
  | asc : SortDirection
  | desc : SortDirection
  deriving DecidableEq, Repr

structure GridSort where
  columnId : String
  direction : SortDirection
  deriving DecidableEq, Repr

/-- `GridFilter`: `operator` kept as a raw string, mirroring the switch in
`defaultFilter` that sends unknown operators to the default branch. -/
structure GridFilter where
  columnId : String
  value : JsValue
  operator : String
  deriving DecidableEq, Repr

structure GridRow where
  id : JsValue
  data : Record
  index : Nat
  selected : Bool
  expanded : Bool := false
  disabled : Bool := false
  deriving DecidableEq, Repr

/-- The `rows` computed (part_001 lines 1348-1358): one `GridRow` per
record, ids from `getRowId`, `selected` looked up in `selectedIds`. -/
def rowsOf (data : List Record) (selectedIds : List JsValue) : List GridRow :=
  data.enum.map fun p =>
    { id := getRowId p.2 p.1, data := p.2, index := p.1,
      selected := decide (getRowId p.2 p.1 ∈ selectedIds),
      expanded := false, disabled := false }

/-- The row ids derived from a record collection (independent of the
selection, which only affects the `selected` flag). -/
def rowIds (data : List Record) : List JsValue :=
  data.enum.map fun p => getRowId p.2 p.1

/-- `getCellValue` (part_001 lines 1735-1744). -/
def getCellValue (data : Record) (column : GridColumn) : JsValue :=
  match column.accessor with
  | some (Accessor.fn f) => f data
  | some (Accessor.key k) => readField data k
  | none => readField data column.id

/-- JS `String(value)` on the modelled values. -/
def toStr : JsValue → String
  | JsValue.vNull => "null"
  | JsValue.vNum n => toString n
  | JsValue.vStr s => s
  | JsValue.vBool b => if b then "true" else "false"

/-- JS `Number(value)` on the modelled values, `none` playing NaN (every
NaN comparison in the source evaluates to false). Numeric strings are
modelled as integer literals. -/
def toNumber : JsValue → Option Int
  | JsValue.vNull => some 0
  | JsValue.vNum n => some n
  | JsValue.vStr s => s.toInt?
  | JsValue.vBool b => some (if b then 1 else 0)

/-- Sign-valued string comparison, modelling `localeCompare` as plain
lexicographic comparison. -/
def strCompare (a b : String) : Int :=
  if a < b then -1 else if b < a then 1 else 0

/-- `String.prototype.includes`: substring test. -/
def strIncludes (s pat : String) : Bool :=
  (List.range (s.length + 1)).any fun i => pat.data.isPrefixOf (s.data.drop i)

/-- `defaultSort` (part_001 lines 1770-1788): null checks first, then
string/string, then number/number, then the stringified fallback (the Date
branch is outside the model). -/
def defaultSort : JsValue → JsValue → Int
  | JsValue.vNull, JsValue.vNull => 0
  | JsValue.vNull, _ => -1
  | _, JsValue.vNull => 1
  | JsValue.vStr a, JsValue.vStr b => strCompare a b
  | JsValue.vNum a, JsValue.vNum b => a - b
  | a, b => strCompare (toStr a) (toStr b)

/-- `defaultFilter` (part_001 lines 1746-1768): rejects null/undefined cell
values outright, otherwise dispatches on the operator string, falling back
to a case-insensitive contains. -/
def defaultFilter (value filterValue : JsValue) (operator : String) : Bool :=
  match value with
  | JsValue.vNull => false
  | _ =>
    let strValue := (toStr value).toLower
    let strFilter := (toStr filterValue).toLower
    if operator = "equals" then strValue == strFilter
    else if operator = "contains" then strIncludes strValue strFilter
    else if operator = "startsWith" then strValue.startsWith strFilter
    else if operator = "endsWith" then strValue.endsWith strFilter
    else if operator = "greaterThan" then
      match toNumber value, toNumber filterValue with
      | some a, some b => decide (b < a)
      | _, _ => false
    else if operator = "lessThan" then
      match toNumber value, toNumber filterValue with
      | some a, some b => decide (a < b)
      | _, _ => false
    else strIncludes strValue strFilter

/-- Whether one row passes every active filter: the body of the predicate
in `applyFilters` (part_001 lines 1667-1682). An unknown column id lets the
filter pass; a custom `filterFn` takes priority; `filter.operator ||
'contains'` is the empty-string check. -/
def rowPasses (filters : List GridFilter) (columns : List GridColumn)
    (row : GridRow) : Bool :=
  filters.all fun f =>
    match columns.find? (fun c => c.id == f.columnId) with
    | none => true
    | some column =>
      let value := getCellValue row.data column
      match column.filterFn with
      | some fn => fn value f.value
      | none =>
        defaultFilter value f.value
          (if f.operator == "" then "contains" else f.operator)

/-- `applyFilters` (part_001 lines 1661-1683). -/
def applyFilters (filters : List GridFilter) (columns : List GridColumn)
    (rows : List GridRow) : List GridRow :=
  if filters.isEmpty then rows else rows.filter (rowPasses filters columns)

/-- The comparator built in `applySorting` (part_001 lines 1691-1713):
first sort key that yields a non-zero comparison decides, `desc` negates. -/
def compareBySorts (columns : List GridColumn) :
    List GridSort → GridRow → GridRow → Int
  | [], _, _ => 0
  | s :: rest, a, b =>
    match columns.find? (fun c => c.id == s.columnId) with
    | none => compareBySorts columns rest a b
    | some column =>
      let av := getCellValue a.data column
      let bv := getCellValue b.data column
      let c := match column.sortCompareFn with
        | some f => f av bv
        | none => defaultSort av bv
      if c = 0 then compareBySorts columns rest a b
      else match s.direction with
        | SortDirection.asc => c
        | SortDirection.desc => -c

/-- Stable insertion of an element in front of the first element it is
`le`-related to. -/
def insertSorted {α : Type} (le : α → α → Bool) (a : α) : List α → List α
  | [] => [a]
  | b :: l => if le a b then a :: b :: l else b :: insertSorted le a l

/-- Stable sort by a boolean comparator, modelling the (stable, per the
ECMAScript spec) `Array.prototype.sort`. -/
def stableSort {α : Type} (le : α → α → Bool) : List α → List α
  | [] => []
  | a :: l => insertSorted le a (stableSort le l)

/-- `applySorting` (part_001 lines 1685-1714). -/
def applySorting (sorts : List GridSort) (columns : List GridColumn)
    (rows : List GridRow) : List GridRow :=
  if sorts.isEmpty then rows
  else stableSort (fun a b => compareBySorts columns sorts a b ≤ 0) rows

structure GridPagination where
  currentPage : Nat
  pageSize : Nat
  totalItems : Nat
  totalPages : Nat
  deriving DecidableEq, Repr

/-- `Math.ceil(a / b)` on naturals. -/
def ceilDiv (a b : Nat) : Nat := (a + b - 1) / b

/-- `updatePaginationTotals` (part_001 lines 1727-1733). -/
def updatePaginationTotals (p : GridPagination) (totalFilteredItems : Nat) :
    GridPagination :=
  { p with totalItems := totalFilteredItems,
           totalPages := ceilDiv totalFilteredItems p.pageSize }

/-- `Array.prototype.slice(a, b)` for `0 ≤ a ≤ b`. -/
def jsSlice {α : Type} (l : List α) (a b : Nat) : List α :=
  (l.drop a).take (b - a)

/-- The option flags `processedRows` consults (only pagination is gated on
an option; filtering and sorting always run). -/
structure GridOptions where
  enablePagination : Bool := true

/-- `applyPagination` (part_001 lines 1716-1725). -/
def applyPagination (options : GridOptions) (p : GridPagination)
    (rows : List GridRow) : List GridRow :=
  if options.enablePagination then
    jsSlice rows ((p.currentPage - 1) * p.pageSize)
      ((p.currentPage - 1) * p.pageSize + p.pageSize)
  else rows

inductive SelectionMode where
  | noSelection : SelectionMode
  | single : SelectionMode
  | multiple : SelectionMode
  deriving DecidableEq, Repr

structure GridSelection where
  mode : SelectionMode
  selectedIds : List JsValue
  selectedRows : List GridRow
  selectAll : Bool
  indeterminate : Bool
  deriving DecidableEq, Repr

/-- The full observable state `processedRows` reads. -/
structure GridStateModel where
  data : List Record
  columns : List GridColumn
  sort : List GridSort
  filters : List GridFilter
  pagination : GridPagination
  selection : GridSelection
  options : GridOptions

/-- The `processedRows` computed (part_001 lines 1361-1377): filter, sort,
recompute the pagination totals from the post-filter count, paginate. The
pagination update is a side effect on the `_pagination` signal, so the
model returns the updated pagination alongside the rows. -/
def processedRows (s : GridStateModel) : List GridRow × GridPagination :=
  let rows := rowsOf s.data s.selection.selectedIds
  let filtered := applyFilters s.filters s.columns rows
  let sorted := applySorting s.sort s.columns filtered
  let pag := updatePaginationTotals s.pagination sorted.length
  (applyPagination s.options pag sorted, pag)

/-! ## C1: the sorting/filtering scenario -/

/-- Record `{id:1, age:30}`. -/
def recA : Record := [("id", JsValue.vNum 1), ("age", JsValue.vNum 30)]

/-- Record `{id:2, age:25}`. -/
def recB : Record := [("id", JsValue.vNum 2), ("age", JsValue.vNum 25)]

/-- Record `{id:3, age:25}`. -/
def recC : Record := [("id", JsValue.vNum 3), ("age", JsValue.vNum 25)]

/-- Columns `id` and `age`, default accessors, no custom comparators or
filter predicates. -/
def scenarioColumns : List GridColumn := [{ id := "id" }, { id := "age" }]

/-- The pagination signal's initial value (pageSize 10, page 1). -/
def initialPagination : GridPagination :=
  { currentPage := 1, pageSize := 10, totalItems := 0, totalPages := 0 }

/-- The selection signal's initial value. -/
def initialSelection (mode : SelectionMode) : GridSelection :=
  { mode := mode, selectedIds := [], selectedRows := [],
    selectAll := false, indeterminate := false }

/-- C1 state, sorting flavour: sort by `age` asc then `id` asc. -/
def c1SortState : GridStateModel :=
  { data := [recA, recB, recC], columns := scenarioColumns,
    sort := [{ columnId := "age", direction := SortDirection.asc },
             { columnId := "id", direction := SortDirection.asc }],
    filters := [], pagination := initialPagination,
    selection := initialSelection SelectionMode.noSelection, options := {} }

/-- C1 state, filtering flavour: single filter `age greaterThan 25`. -/
def c1FilterState : GridStateModel :=
  { data := [recA, recB, recC], columns := scenarioColumns, sort := [],
    filters := [{ columnId := "age", value := JsValue.vNum 25,
                  operator := "greaterThan" }],
    pagination := initialPagination,
    selection := initialSelection SelectionMode.noSelection, options := {} }

/-! ## C3: selection -/

/-- Tail of every selection mutation (part_001 lines 1568-1578): store the
new id and row lists and recompute `selectAll` (`allRowIds.length > 0 &&
allRowIds.every(id => selectedIds.includes(id))`) and `indeterminate`
(`selectedIds.length > 0 && !selectAll`). -/
def recomputeFlags (data : List Record) (sel : GridSelection)
    (selectedIds : List JsValue) (selectedRows : List GridRow) : GridSelection :=
  let allRowIds := (rowsOf data sel.selectedIds).map fun r => r.id
  let selectAll :=
    decide (0 < allRowIds.length) && allRowIds.all fun id => decide (id ∈ selectedIds)
  { sel with
    selectedIds := selectedIds, selectedRows := selectedRows,
    selectAll := selectAll,
    indeterminate := decide (0 < selectedIds.length) && !selectAll }

/-- `selectRow` (part_001 lines 1544-1580). The rows read inside the update
callback still see the pre-update selection. -/
def selectRow (data : List Record) (rowId : JsValue) (selected : Bool)
    (sel : GridSelection) : GridSelection :=
  if sel.mode = SelectionMode.noSelection then sel
  else
    let rows := rowsOf data sel.selectedIds
    let newIds :=
      if selected then
        if sel.mode = SelectionMode.single then [rowId]
        else if decide (rowId ∈ sel.selectedIds) then sel.selectedIds
        else sel.selectedIds ++ [rowId]
      else sel.selectedIds.filter fun id => !decide (id = rowId)
    let newRows :=
      if selected then
        if sel.mode = SelectionMode.single then rows.filter fun r => decide (r.id = rowId)
        else if decide (rowId ∈ sel.selectedIds) then sel.selectedRows
        else
          (match rows.find? fun r => decide (r.id = rowId) with
            | some r => sel.selectedRows ++ [r]
            | none => sel.selectedRows)
      else sel.selectedRows.filter fun r => !decide (r.id = rowId)
    recomputeFlags data sel newIds newRows

/-- `selectAllRows` (part_001 lines 1582-1606): a no-op outside `multiple`
mode; selecting marks `selectAll` unconditionally. -/
def selectAllRows (data : List Record) (selected : Bool)
    (sel : GridSelection) : GridSelection :=
  if sel.mode ≠ SelectionMode.multiple then sel
  else if selected then
    let allRows := rowsOf data sel.selectedIds
    { sel with selectedIds := allRows.map fun r => r.id, selectedRows := allRows,
               selectAll := true, indeterminate := false }
  else
    { sel with selectedIds := [], selectedRows := [],
               selectAll := false, indeterminate := false }

/-- A call in a `selectRow`/`selectAllRows` sequence. -/
inductive SelOp where
  | row : JsValue → Bool → SelOp
  | all : Bool → SelOp

def applySelOp (data : List Record) (sel : GridSelection) : SelOp → GridSelection
  | SelOp.row rowId b => selectRow data rowId b sel
  | SelOp.all b => selectAllRows data b sel

/-- Run a finite sequence of selection calls against a fixed data set. -/
def runSelOps (data : List Record) (ops : List SelOp)
    (sel : GridSelection) : GridSelection :=
  ops.foldl (applySelOp data) sel

/-- The selection invariant of the claim: `selectAll` iff every row id is
selected, `indeterminate` iff the selection is non-empty and not
`selectAll`. -/
def SelInvariant (data : List Record) (sel : GridSelection) : Prop :=
  (sel.selectAll = true ↔ ∀ id ∈ rowIds data, id ∈ sel.selectedIds) ∧
  (sel.indeterminate = true ↔ (sel.selectedIds ≠ [] ∧ sel.selectAll = false))

/-- The C10 witness filter: `age greaterThan 25`. -/
def c10Filter : GridFilter :=
  { columnId := "age", value := JsValue.vNum 25, operator := "greaterThan" }

/-- The C10 witness column: `age`, default accessor, no custom filter. -/
def c10Column : GridColumn := { id := "age" }

/-- The C10 witness row: a record with no `age` field. -/
def c10Row : GridRow :=
  { id := JsValue.vNum 7, data := [("id", JsValue.vNum 7)], index := 0,
    selected := false }

/-! ## C4: SmartFilteringService advanced-filter combination

Source: `SmartFilteringService.evaluateAdvancedFilters`
(smart-filtering.service.ts lines 196-213). The per-filter predicate
`evaluateFilter` (lines 215-274) is a method call on both sides of the
claimed equivalence, so the embedding takes it as an explicit function
argument over the service's generic row type `T`; the claim is about how
its verdicts are combined, not about its body. -/

inductive FilterCondition where
  | fAnd : FilterCondition
  | fOr : FilterCondition
  deriving DecidableEq, Repr

/-- `AdvancedFilter` (advanced-grid.interface lines 36-44). -/
structure AdvancedFilter where
  columnId : String
  operator : String
  value : JsValue
  value2 : Option JsValue := none
  caseSensitive : Bool := false
  condition : Option FilterCondition := none
  deriving DecidableEq, Repr

/-- `!f.condition || f.condition === 'and'`. -/
def isAndFilter (f : AdvancedFilter) : Bool :=
  match f.condition with
  | none => true
  | some FilterCondition.fAnd => true
  | some FilterCondition.fOr => false

/-- `f.condition === 'or'`. -/
def isOrFilter (f : AdvancedFilter) : Bool :=
  match f.condition with
  | some FilterCondition.fOr => true
  | _ => false

/-- `evaluateAdvancedFilters` (smart-filtering.service.ts lines 196-213):
all AND filters must pass, and the OR set must be empty or have a passing
member. -/
def evaluateAdvancedFilters {T : Type} (row : T)
    (evalFilter : T → AdvancedFilter → Bool)
    (filters : List AdvancedFilter) : Bool :=
  if filters.isEmpty then true
  else
    let andFilters := filters.filter isAndFilter
    let orFilters := filters.filter isOrFilter
    let passesAndFilters := andFilters.all fun f => evalFilter row f
    let passesOrFilters := orFilters.isEmpty || orFilters.any fun f => evalFilter row f
    passesAndFilters && passesOrFilters

/-! ## C8: ColumnManagementService.removeColumn

Source: `ColumnManagementService` (column-management.service.ts). The six
signals the claim touches are a record; widths
(`Record<string, number>`) are an association list. -/

structure DynamicColumn where
  id : String
  header : String := ""
  deriving DecidableEq, Repr

structure ColumnGroup where
  id : String
  header : String := ""
  children : List String
  expanded : Bool := true
  deriving DecidableEq, Repr

structure ColumnManagerState where
  columns : List DynamicColumn
  columnGroups : List ColumnGroup
  columnOrder : List String
  columnWidths : List (String × Nat)
  lockedLeft : List String
  lockedRight : List String
  hiddenColumns : List String
  deriving DecidableEq, Repr

/-- `removeColumnWidth` (lines 184-188): `delete widths[columnId]`. -/
def removeColumnWidth (st : ColumnManagerState) (columnId : String) :
    ColumnManagerState :=
  { st with columnWidths := st.columnWidths.filter fun p => !(p.1 == columnId) }

/-- `unlockColumn` (lines 265-270). -/
def unlockColumn (st : ColumnManagerState) (columnId : String) :
    ColumnManagerState :=
  { st with lockedLeft := st.lockedLeft.filter fun id => !(id == columnId),
            lockedRight := st.lockedRight.filter fun id => !(id == columnId) }

/-- `showColumn` (lines 228-232), state part (the emitted event is not
modelled). -/
def showColumn (st : ColumnManagerState) (columnId : String) :
    ColumnManagerState :=
  { st with hiddenColumns := st.hiddenColumns.filter fun id => !(id == columnId) }

/-- `removeColumn` (lines 119-130): drop the column from the column list
and the order, then clean up width, locks and hidden list. The column
groups signal is not touched. -/
def removeColumn (st : ColumnManagerState) (columnId : String) :
    ColumnManagerState :=
  let st1 := { st with
    columns := st.columns.filter fun col => !(col.id == columnId),
    columnOrder := st.columnOrder.filter fun id => !(id == columnId) }
  showColumn (unlockColumn (removeColumnWidth st1 columnId) columnId) columnId

/-- A one-column, one-group state for the C8 counterexample. -/
def c8State : ColumnManagerState :=
  { columns := [{ id := "a", header := "A" }],
    columnGroups := [{ id := "g", header := "G", children := ["a"] }],
    columnOrder := ["a"], columnWidths := [("a", 100)],
    lockedLeft := ["a"], lockedRight := [], hiddenColumns := [] }

/-! ## C9: importState on malformed JSON

Source: `GridStateService.importState` (part_001 lines 1639-1649). The
platform builtin `JSON.parse` is not repository code; it is modelled as an
arbitrary fallible parser returning `none` when it throws (the `catch`
branch, which only logs). A successful parse yields the four optional
sections, each applied only when present (`if (state.sort) ...`). -/

/-- The observable state touched by `importState`. -/
structure ObservableState where
  sort : List GridSort
  filters : List GridFilter
  pagination : GridPagination
  selection : GridSelection
  deriving DecidableEq, Repr

/-- A parsed persisted-state payload: each section optional. -/
structure ImportedState where
  sort : Option (List GridSort) := none
  filters : Option (List GridFilter) := none
  pagination : Option GridPagination := none
  selection : Option GridSelection := none

/-- `importState` (part_001 lines 1639-1649), parameterised by the
`JSON.parse` model. -/
def importState (parse : String → Option ImportedState) (stateJson : String)
    (st : ObservableState) : ObservableState :=
  match parse stateJson with
  | none => st
  | some s =>
    { sort := s.sort.getD st.sort,
      filters := s.filters.getD st.filters,
      pagination := s.pagination.getD st.pagination,
      selection := s.selection.getD st.selection }

/-- The observable state used by the C9 witness. -/
def c9State : ObservableState :=
  { sort := [{ columnId := "age", direction := SortDirection.asc }],
    filters := [], pagination := initialPagination,
    selection := initialSelection SelectionMode.multiple }

/-! ## Theorems -/

/-- C6 counterexample: at the scenario input the code yields
`visibleEndIndex = 0 + 10 + 10 = 20` (clamp `min 99` does not bite), not
`19` as the claim states. -/
theorem c6_visibleEndIndex_not_19 : ¬ (visibleEndIndex virtScenario = 19) := by
  decide

/-- C6 amended: for `containerHeight=400, itemHeight=40, overscan=5,
scrollTop=0, totalItems=100` the derived state is `visibleStartIndex=0`,
`visibleEndIndex=20`, `totalHeight=4000`, `offsetY=0`. -/
theorem c6_virtualization_scenario :
    visibleStartIndex virtScenario = 0 ∧ visibleEndIndex virtScenario = 20 ∧
    totalHeight virtScenario = 4000 ∧ offsetY virtScenario = 0 := by
  decide

/-- C7 counterexample: the claimed chain `0 ≤ visibleStartIndex ≤
visibleEndIndex ≤ max (totalItems-1) 0` fails at the valid input
`containerHeight=400, itemHeight=40, overscan=5, scrollTop=0,
totalItems=0`: there `visibleStartIndex = 0` but `visibleEndIndex = -1`. -/
theorem c7_bounds_fail_on_empty :
    ¬ ((visibleStartIndex
        { containerHeight := 400, itemHeight := 40, overscan := 5,
          scrollTop := 0, totalItems := 0 } : Int) ≤
      visibleEndIndex
        { containerHeight := 400, itemHeight := 40, overscan := 5,
          scrollTop := 0, totalItems := 0 }) := by
  decide

/-- C7 amended: for all valid inputs (positive `itemHeight` and
`containerHeight`), `0 ≤ visibleStartIndex`, `visibleEndIndex ≤
max (totalItems - 1) 0`, `visibleStartIndex ≤ visibleEndIndex` whenever
`visibleStartIndex ≤ totalItems - 1` (so in particular whenever the scroll
position lies within a non-empty item range), and the window covers at
least `visibleItems` items whenever `totalItems` is large enough, namely
`totalItems ≥ visibleStartIndex + visibleItems + 2*overscan + 1`. -/
theorem c7_virtualization_bounds (v : VirtInput)
    (hih : 0 < v.itemHeight) (hch : 0 < v.containerHeight) :
    (0 : Int) ≤ (visibleStartIndex v : Int) ∧
    visibleEndIndex v ≤ max ((v.totalItems : Int) - 1) 0 ∧
    ((visibleStartIndex v : Int) ≤ (v.totalItems : Int) - 1 →
      (visibleStartIndex v : Int) ≤ visibleEndIndex v) ∧
    (visibleStartIndex v + visibleItems v + 2 * v.overscan + 1 ≤ v.totalItems →
      (visibleItems v : Int) ≤
        visibleEndIndex v - (visibleStartIndex v : Int) + 1) := by
  refine ⟨Int.ofNat_nonneg _, ?_, ?_, ?_⟩
  · exact le_trans (min_le_left _ _) (le_max_left _ _)
  · intro h
    exact le_min h (by omega)
  · intro h
    have h2 : (visibleStartIndex v : Int) + (visibleItems v : Int) +
        2 * (v.overscan : Int) ≤ (v.totalItems : Int) - 1 := by
      have := (Int.ofNat_le.mpr h)
      push_cast at this ⊢
      omega
    have hend : visibleEndIndex v =
        (visibleStartIndex v : Int) + (visibleItems v : Int) +
          2 * (v.overscan : Int) := by
      unfold visibleEndIndex
      exact min_eq_right h2
    rw [hend]
    omega

/-- Witness for the C7 theorem at the spec scenario input. -/
theorem c7_virtualization_bounds_witness :
    0 < virtScenario.itemHeight ∧ 0 < virtScenario.containerHeight ∧
    ((0 : Int) ≤ (visibleStartIndex virtScenario : Int) ∧
    visibleEndIndex virtScenario ≤ max ((virtScenario.totalItems : Int) - 1) 0 ∧
    ((visibleStartIndex virtScenario : Int) ≤ (virtScenario.totalItems : Int) - 1 →
      (visibleStartIndex virtScenario : Int) ≤ visibleEndIndex virtScenario) ∧
    (visibleStartIndex virtScenario + visibleItems virtScenario +
        2 * virtScenario.overscan + 1 ≤ virtScenario.totalItems →
      (visibleItems virtScenario : Int) ≤
        visibleEndIndex virtScenario - (visibleStartIndex virtScenario : Int) + 1)) :=
  ⟨by decide, by decide, c7_virtualization_bounds virtScenario (by decide) (by decide)⟩

/-- C1: sorting `[{id:1,age:30},{id:2,age:25},{id:3,age:25}]` by `age` asc
then `id` asc yields processed rows `[2, 3, 1]`; the filter `age
greaterThan 25` leaves exactly the record with id 1, with
`totalItems = 1` and `totalPages = 1`. -/
theorem c1_sort_and_filter_scenario :
    ((processedRows c1SortState).1.map fun r => r.id) =
      [JsValue.vNum 2, JsValue.vNum 3, JsValue.vNum 1] ∧
    ((processedRows c1FilterState).1.map fun r => r.data) = [recA] ∧
    (processedRows c1FilterState).2.totalItems = 1 ∧
    (processedRows c1FilterState).2.totalPages = 1 := by
  refine ⟨by decide, by decide, by decide, by decide⟩

/-! ## C2: pagination coverage -/

/-- Concatenating the `ceilDiv n ps` chunks of size `ps` of a list of
length `n` gives back the list. -/
theorem join_chunks {α : Type} (ps : Nat) (hps : 0 < ps) :
    ∀ (k : Nat) (l : List α), ceilDiv l.length ps = k →
      ((List.range k).map fun i => (l.drop (i * ps)).take ps).flatten = l := by
  intro k
  induction k with
  | zero =>
    intro l h
    have hlen : l.length = 0 := by
      have := h
      unfold ceilDiv at this
      rcases Nat.eq_zero_or_pos l.length with h0 | h1
      · exact h0
      · exfalso
        have hle : ps ≤ l.length + ps - 1 := by omega
        have := Nat.div_le_div_right (c := ps) hle
        rw [Nat.div_self hps] at this
        omega
    have : l = [] := List.eq_nil_of_length_eq_zero hlen
    subst this
    rfl
  | succ k ih =>
    intro l h
    have hn1 : 1 ≤ l.length := by
      by_contra hc
      have h0 : l.length = 0 := by omega
      unfold ceilDiv at h
      rw [h0] at h
      rw [Nat.div_eq_of_lt (by omega)] at h
      omega
    rw [List.range_succ_eq_map, List.map_cons, List.map_map, List.flatten_cons]
    have hhead : (l.drop (0 * ps)).take ps = l.take ps := by
      simp
    have hdrop : ∀ i : Nat, l.drop (Nat.succ i * ps) = (l.drop ps).drop (i * ps) := by
      intro i
      rw [List.drop_drop]
      congr 1
      rw [Nat.succ_mul, Nat.add_comm]
    have hstep : ((List.range k).map ((fun i => (l.drop (i * ps)).take ps) ∘ Nat.succ)) =
        ((List.range k).map fun i => ((l.drop ps).drop (i * ps)).take ps) := by
      apply List.map_congr_left
      intro i _
      simp only [Function.comp]
      rw [hdrop i]
    rw [hhead, hstep]
    have hceil : ceilDiv (l.drop ps).length ps = k := by
      rw [List.length_drop]
      unfold ceilDiv at h ⊢
      have e1 : l.length + ps - 1 = (l.length - 1) + ps := by omega
      rw [e1, Nat.add_div_right _ hps] at h
      rcases Nat.lt_or_ge (l.length - 1) ps with hlt | hge
      · have : (l.length - 1) / ps = 0 := Nat.div_eq_of_lt hlt
        have hk0 : k = 0 := by omega
        have hdrop0 : l.length - ps = 0 := by
          by_contra hc
          have hgt : ps < l.length := by omega
          have hle : ps ≤ l.length - 1 := by omega
          omega
        rw [hdrop0, hk0]
        apply Nat.div_eq_of_lt
        omega
      · have e2 : l.length - ps + ps - 1 = (l.length - 1 - ps) + ps := by omega
        rw [e2, Nat.add_div_right _ hps]
        have e3 : l.length - 1 = (l.length - 1 - ps) + ps := by omega
        have e4 : (l.length - 1) / ps = (l.length - 1 - ps) / ps + 1 := by
          conv =>
            lhs
            rw [e3]
          exact Nat.add_div_right _ hps
        omega
    rw [ih (l.drop ps) hceil]
    exact List.take_append_drop ps l

/-- C2: with pagination enabled and `pageSize ≥ 1`, concatenating the
pages produced by `applyPagination` for `currentPage = 1 .. totalPages`
(with `totalPages` as recomputed by `updatePaginationTotals` from the
filtered row count) is exactly the filtered-and-sorted row sequence: no
row duplicated, none omitted. -/
theorem c2_pagination_coverage (options : GridOptions)
    (hopt : options.enablePagination = true)
    (basePag : GridPagination) (hps : 1 ≤ basePag.pageSize)
    (rows : List GridRow) :
    ((List.range (updatePaginationTotals basePag rows.length).totalPages).map
        fun i =>
          applyPagination options
            { updatePaginationTotals basePag rows.length with currentPage := i + 1 }
            rows).flatten = rows := by
  have hpag : ∀ i : Nat,
      applyPagination options
        { updatePaginationTotals basePag rows.length with currentPage := i + 1 }
        rows = (rows.drop (i * basePag.pageSize)).take basePag.pageSize := by
    intro i
    unfold applyPagination
    rw [hopt]
    simp only [if_true]
    unfold jsSlice updatePaginationTotals
    simp only [Nat.add_sub_cancel]
    congr 1
    omega
  have hmap : ((List.range (updatePaginationTotals basePag rows.length).totalPages).map
      fun i => applyPagination options
        { updatePaginationTotals basePag rows.length with currentPage := i + 1 }
        rows) =
      ((List.range (ceilDiv rows.length basePag.pageSize)).map
        fun i => (rows.drop (i * basePag.pageSize)).take basePag.pageSize) := by
    apply List.map_congr_left
    intro i _
    exact hpag i
  rw [hmap]
  exact join_chunks basePag.pageSize hps (ceilDiv rows.length basePag.pageSize) rows rfl

/-- Witness for C2 at a concrete five-row list with page size 2 (three
pages: two of size 2 and one of size 1). -/
theorem c2_pagination_coverage_witness :
    ({ enablePagination := true : GridOptions }.enablePagination = true) ∧
    (1 ≤ ({ currentPage := 1, pageSize := 2, totalItems := 0, totalPages := 0 :
            GridPagination }).pageSize) ∧
    ((List.range (updatePaginationTotals
        { currentPage := 1, pageSize := 2, totalItems := 0, totalPages := 0 }
        (rowsOf [recA, recB, recC, recA, recB] []).length).totalPages).map
      fun i =>
        applyPagination { enablePagination := true }
          { updatePaginationTotals
              { currentPage := 1, pageSize := 2, totalItems := 0, totalPages := 0 }
              (rowsOf [recA, recB, recC, recA, recB] []).length
            with currentPage := i + 1 }
          (rowsOf [recA, recB, recC, recA, recB] [])).flatten =
      rowsOf [recA, recB, recC, recA, recB] [] :=
  ⟨rfl, by decide,
    c2_pagination_coverage { enablePagination := true } rfl
      { currentPage := 1, pageSize := 2, totalItems := 0, totalPages := 0 }
      (by decide) (rowsOf [recA, recB, recC, recA, recB] [])⟩

theorem rowsOf_map_id (data : List Record) (ids : List JsValue) :
    (rowsOf data ids).map (fun r => r.id) = rowIds data := by
  simp [rowsOf, rowIds, List.map_map, Function.comp]

theorem rowIds_length (data : List Record) :
    (rowIds data).length = data.length := by
  simp [rowIds]

theorem rowIds_ne_nil (data : List Record) (hne : data ≠ []) :
    rowIds data ≠ [] := by
  intro h
  apply hne
  have := congrArg List.length h
  rw [rowIds_length] at this
  exact List.eq_nil_of_length_eq_zero this

theorem not_all_mem_nil (data : List Record) (hne : data ≠ []) :
    ¬ ∀ id ∈ rowIds data, id ∈ ([] : List JsValue) := by
  intro h
  rcases List.exists_mem_of_ne_nil _ (rowIds_ne_nil data hne) with ⟨id, hid⟩
  exact List.not_mem_nil id (h id hid)

theorem recomputeFlags_invariant (data : List Record) (sel : GridSelection)
    (ids : List JsValue) (rows : List GridRow) (hne : data ≠ []) :
    SelInvariant data (recomputeFlags data sel ids rows) := by
  have hlen : 0 < (rowIds data).length := by
    rw [rowIds_length]
    exact List.length_pos.mpr hne
  unfold SelInvariant recomputeFlags
  rw [rowsOf_map_id]
  constructor
  · simp only [Bool.and_eq_true, List.all_eq_true, decide_eq_true_eq]
    constructor
    · intro h
      exact h.2
    · intro h
      exact ⟨hlen, h⟩
  · simp only [Bool.and_eq_true, Bool.not_eq_true', decide_eq_true_eq]
    rw [List.length_pos]

theorem selectRow_invariant (data : List Record) (rowId : JsValue) (b : Bool)
    (sel : GridSelection) (hne : data ≠ [])
    (hprev : SelInvariant data sel) :
    SelInvariant data (selectRow data rowId b sel) := by
  unfold selectRow
  by_cases hm : sel.mode = SelectionMode.noSelection
  · rw [if_pos hm]
    exact hprev
  · rw [if_neg hm]
    exact recomputeFlags_invariant data sel _ _ hne

theorem selectAllRows_invariant (data : List Record) (b : Bool)
    (sel : GridSelection) (hne : data ≠ [])
    (hprev : SelInvariant data sel) :
    SelInvariant data (selectAllRows data b sel) := by
  unfold selectAllRows
  by_cases hm : sel.mode ≠ SelectionMode.multiple
  · rw [if_pos hm]
    exact hprev
  · rw [if_neg hm]
    by_cases hb : b
    · rw [if_pos hb]
      constructor
      · simp [rowsOf_map_id]
      · simp
    · rw [if_neg hb]
      constructor
      · simp only [iff_false, Bool.false_eq_true, false_iff]
        exact not_all_mem_nil data hne
      · simp

theorem runSelOps_invariant (data : List Record) (ops : List SelOp)
    (hne : data ≠ []) :
    ∀ sel : GridSelection, SelInvariant data sel →
      SelInvariant data (runSelOps data ops sel) := by
  induction ops with
  | nil =>
    intro sel h
    exact h
  | cons op rest ih =>
    intro sel h
    have hstep : SelInvariant data (applySelOp data sel op) := by
      cases op with
      | row rowId b => exact selectRow_invariant data rowId b sel hne h
      | all b => exact selectAllRows_invariant data b sel hne h
    exact ih (applySelOp data sel op) hstep

theorem initialSelection_invariant (data : List Record) (mode : SelectionMode)
    (hne : data ≠ []) :
    SelInvariant data (initialSelection mode) := by
  constructor
  · simp only [initialSelection, Bool.false_eq_true, false_iff]
    exact not_all_mem_nil data hne
  · simp [initialSelection]

/-- C3 counterexample: with an empty record collection, `multiple` mode and
the single call `selectRow(0, true)`, the code leaves `selectAll = false`
(the guard `allRowIds.length > 0` fails) while "`selectedIds` contains the
id of every row of the row set" holds vacuously, so the claimed
equivalence is false. -/
theorem c3_fails_on_empty_rowset :
    ¬ (((runSelOps [] [SelOp.row (JsValue.vNum 0) true]
          (initialSelection SelectionMode.multiple)).selectAll = true) ↔
        ∀ id ∈ rowIds ([] : List Record),
          id ∈ (runSelOps [] [SelOp.row (JsValue.vNum 0) true]
            (initialSelection SelectionMode.multiple)).selectedIds) := by
  decide

/-- C3 amended: for every **non-empty** record collection and every finite
sequence of `selectRow`/`selectAllRows` calls in any mode, the final
selection satisfies `selectAll = true` iff `selectedIds` contains the id of
every row of the full unfiltered row set, and `indeterminate = true` iff
`selectedIds` is non-empty and `selectAll` is false. (For the empty row
set the code breaks the first equivalence: `selectRow` forces `selectAll =
false` while the containment is vacuous, and `selectAllRows(true)` forces
`selectAll = true`.) -/
theorem c3_selection_invariant (data : List Record) (mode : SelectionMode)
    (ops : List SelOp) (hne : data ≠ []) :
    ((runSelOps data ops (initialSelection mode)).selectAll = true ↔
      ∀ id ∈ rowIds data,
        id ∈ (runSelOps data ops (initialSelection mode)).selectedIds) ∧
    ((runSelOps data ops (initialSelection mode)).indeterminate = true ↔
      ((runSelOps data ops (initialSelection mode)).selectedIds ≠ [] ∧
        (runSelOps data ops (initialSelection mode)).selectAll = false)) :=
  runSelOps_invariant data ops hne (initialSelection mode)
    (initialSelection_invariant data mode hne)

/-- Witness for C3 at a one-record collection, `multiple` mode, selecting
the single row. -/
theorem c3_selection_invariant_witness :
    (([[("id", JsValue.vNum 1)]] : List Record) ≠ []) ∧
    (((runSelOps [[("id", JsValue.vNum 1)]] [SelOp.row (JsValue.vNum 1) true]
        (initialSelection SelectionMode.multiple)).selectAll = true ↔
      ∀ id ∈ rowIds [[("id", JsValue.vNum 1)]],
        id ∈ (runSelOps [[("id", JsValue.vNum 1)]] [SelOp.row (JsValue.vNum 1) true]
          (initialSelection SelectionMode.multiple)).selectedIds) ∧
    ((runSelOps [[("id", JsValue.vNum 1)]] [SelOp.row (JsValue.vNum 1) true]
        (initialSelection SelectionMode.multiple)).indeterminate = true ↔
      ((runSelOps [[("id", JsValue.vNum 1)]] [SelOp.row (JsValue.vNum 1) true]
          (initialSelection SelectionMode.multiple)).selectedIds ≠ [] ∧
        (runSelOps [[("id", JsValue.vNum 1)]] [SelOp.row (JsValue.vNum 1) true]
          (initialSelection SelectionMode.multiple)).selectAll = false))) :=
  ⟨by decide,
    c3_selection_invariant [[("id", JsValue.vNum 1)]] SelectionMode.multiple
      [SelOp.row (JsValue.vNum 1) true] (by decide)⟩

/-! ## C5: row id uniqueness -/

/-- C5 counterexample: two records both carrying `id: 1` resolve to the
same row id, so the derived ids are not pairwise distinct for every
record collection. -/
theorem c5_duplicate_id_fields_collide :
    ¬ (rowIds [[("id", JsValue.vNum 1)], [("id", JsValue.vNum 1)]]).Nodup := by
  decide

/-- C5 amended: row ids are resolved by preferring the record fields `id`,
`_id`, `uuid` in that order with the positional index as fallback; they
are pairwise distinct whenever no record supplies any of those fields (so
every row falls back to its distinct positional index). Distinctness can
fail for collections whose records carry duplicate `id` values. -/
theorem c5_rowIds_nodup_of_no_id_fields (data : List Record)
    (h : ∀ r ∈ data, coalesceField r "id" = none ∧
      coalesceField r "_id" = none ∧ coalesceField r "uuid" = none) :
    (rowIds data).Nodup := by
  have heq : rowIds data =
      (List.range data.length).map (fun i : Nat => JsValue.vNum (Int.ofNat i)) := by
    unfold rowIds
    have hcong : data.enum.map (fun p => getRowId p.2 p.1) =
        data.enum.map (fun p => JsValue.vNum (Int.ofNat p.1)) := by
      apply List.map_congr_left
      intro p hp
      have hmem : p.2 ∈ data := by
        rcases p with ⟨i, r⟩
        exact List.mem_iff_get?.mpr ⟨i, List.mem_enum_iff_get?.mp hp⟩
      rcases h p.2 hmem with ⟨h1, h2, h3⟩
      unfold getRowId
      rw [h1, h2, h3]
      rfl
    rw [hcong]
    have hsplit : data.enum.map (fun p => JsValue.vNum (Int.ofNat p.1)) =
        (data.enum.map Prod.fst).map (fun i : Nat => JsValue.vNum (Int.ofNat i)) := by
      rw [List.map_map]
      rfl
    rw [hsplit, List.enum_map_fst]
  rw [heq]
  have hinj : Function.Injective (fun i : Nat => JsValue.vNum (Int.ofNat i)) := by
    intro a b hab
    have hcast : Int.ofNat a = Int.ofNat b := by
      injection hab
    exact Int.ofNat.inj hcast ▸ rfl
  exact List.Nodup.map hinj (List.nodup_range data.length)

/-- Witness for C5 at a two-record collection with no id-like fields. -/
theorem c5_rowIds_nodup_witness :
    (∀ r ∈ [[("x", JsValue.vNum 5)], ([] : Record)],
      coalesceField r "id" = none ∧
      coalesceField r "_id" = none ∧ coalesceField r "uuid" = none) ∧
    (rowIds [[("x", JsValue.vNum 5)], ([] : Record)]).Nodup :=
  ⟨by decide, c5_rowIds_nodup_of_no_id_fields _ (by decide)⟩

/-! ## C10: null cell values are excluded by every filter -/

/-- C10: `defaultFilter` returns false on a null/undefined cell value for
every operator and filter value; hence a row whose cell value for a
filtered column is null/undefined (the filter's column resolved, with no
custom `filterFn`) never appears in `applyFilters` output. -/
theorem c10_null_excluded (operator : String) (filterValue : JsValue)
    (filters : List GridFilter) (columns : List GridColumn)
    (rows : List GridRow) (f : GridFilter) (column : GridColumn) (row : GridRow)
    (hf : f ∈ filters)
    (hcol : columns.find? (fun c => c.id == f.columnId) = some column)
    (hfn : column.filterFn = none)
    (hval : getCellValue row.data column = JsValue.vNull) :
    defaultFilter JsValue.vNull filterValue operator = false ∧
    row ∉ applyFilters filters columns rows := by
  constructor
  · rfl
  · intro hmem
    have hnotnil : ¬ filters.isEmpty = true := by
      cases filters with
      | nil => exact absurd hf (List.not_mem_nil f)
      | cons a l => simp [List.isEmpty]
    unfold applyFilters at hmem
    rw [if_neg hnotnil] at hmem
    have hpass : rowPasses filters columns row = true :=
      List.of_mem_filter hmem
    unfold rowPasses at hpass
    rw [List.all_eq_true] at hpass
    have := hpass f hf
    rw [hcol] at this
    simp only [hfn, hval] at this
    rw [show defaultFilter JsValue.vNull f.value
        (if f.operator == "" then "contains" else f.operator) = false from rfl] at this
    exact Bool.false_ne_true this

/-- Witness for C10: a one-filter, one-column, one-row instance where the
row lacks the filtered `age` field. -/
theorem c10_null_excluded_witness :
    (c10Filter ∈ [c10Filter]) ∧
    ([c10Column].find? (fun c => c.id == c10Filter.columnId) = some c10Column) ∧
    (c10Column.filterFn = none) ∧
    (getCellValue c10Row.data c10Column = JsValue.vNull) ∧
    (defaultFilter JsValue.vNull (JsValue.vNum 25) "greaterThan" = false ∧
      c10Row ∉ applyFilters [c10Filter] [c10Column] [c10Row]) :=
  ⟨List.mem_singleton.mpr rfl, rfl, rfl, rfl,
    c10_null_excluded "greaterThan" (JsValue.vNum 25) _ _ _ _ _ _
      (List.mem_singleton.mpr rfl) rfl rfl rfl⟩

/-- C4: a row passes the advanced-filter evaluation iff every filter whose
condition is absent or `and` passes, and the set of `or` filters is empty
or at least one of them passes. -/
theorem c4_advanced_filter_semantics {T : Type} (row : T)
    (evalFilter : T → AdvancedFilter → Bool)
    (filters : List AdvancedFilter) :
    evaluateAdvancedFilters row evalFilter filters = true ↔
      ((∀ f ∈ filters, isAndFilter f = true → evalFilter row f = true) ∧
        ((∀ f ∈ filters, ¬ isOrFilter f = true) ∨
          ∃ f ∈ filters, isOrFilter f = true ∧ evalFilter row f = true)) := by
  unfold evaluateAdvancedFilters
  by_cases hempty : filters.isEmpty
  · rw [if_pos hempty]
    have hnil : filters = [] := List.isEmpty_iff.mp hempty
    subst hnil
    simp
  · rw [if_neg hempty]
    simp only [Bool.and_eq_true, Bool.or_eq_true, List.all_eq_true,
      List.any_eq_true, List.mem_filter, List.isEmpty_iff,
      List.filter_eq_nil]
    constructor
    · rintro ⟨hand, hor⟩
      refine ⟨fun f hf ha => hand f ⟨hf, ha⟩, ?_⟩
      rcases hor with hnone | ⟨f, ⟨hf, ho⟩, hp⟩
      · exact Or.inl fun f hf => hnone f hf
      · exact Or.inr ⟨f, hf, ho, hp⟩
    · rintro ⟨hand, hor⟩
      refine ⟨fun f hf => hand f hf.1 hf.2, ?_⟩
      rcases hor with hnone | ⟨f, hf, ho, hp⟩
      · exact Or.inl fun f hf => hnone f hf
      · exact Or.inr ⟨f, ⟨hf, ho⟩, hp⟩

/-- C8 counterexample: after `removeColumn("a")` on a state whose only
group has child list `["a"]`, the id `"a"` still appears in that group's
children — `removeColumn` never touches the groups signal. -/
theorem c8_group_children_not_purged :
    ("a" ∈ c8State.columns.map fun c => c.id) ∧
    ∃ g ∈ (removeColumn c8State "a").columnGroups, "a" ∈ g.children := by
  refine ⟨by decide, ⟨{ id := "g", header := "G", children := ["a"] }, by decide, by decide⟩⟩

/-- C8 amended: for every column-manager state and id present in the
column list, after `removeColumn(id)` the id no longer appears in the
column list, the order list, the width map, the locked-left list, the
locked-right list, or the hidden list. Column-group children lists are
left untouched, so the id may survive there (the grouped rendering
`getGroupedColumns` still drops it, because it intersects children with
the live visible columns). -/
theorem c8_removeColumn_purges (st : ColumnManagerState) (columnId : String)
    (hmem : columnId ∈ st.columns.map fun c => c.id) :
    (columnId ∉ (removeColumn st columnId).columns.map fun c => c.id) ∧
    columnId ∉ (removeColumn st columnId).columnOrder ∧
    (∀ p ∈ (removeColumn st columnId).columnWidths, p.1 ≠ columnId) ∧
    columnId ∉ (removeColumn st columnId).lockedLeft ∧
    columnId ∉ (removeColumn st columnId).lockedRight ∧
    columnId ∉ (removeColumn st columnId).hiddenColumns := by
  unfold removeColumn showColumn unlockColumn removeColumnWidth
  refine ⟨?_, ?_, ?_, ?_, ?_, ?_⟩
  · intro hmem2
    rcases List.mem_map.mp hmem2 with ⟨c, hc, hcid⟩
    have := (List.mem_filter.mp hc).2
    rw [hcid] at this
    simp at this
  · intro hmem2
    have := (List.mem_filter.mp hmem2).2
    simp at this
  · intro p hp
    have := (List.mem_filter.mp hp).2
    simpa using this
  · intro hmem2
    have := (List.mem_filter.mp hmem2).2
    simp at this
  · intro hmem2
    have := (List.mem_filter.mp hmem2).2
    simp at this
  · intro hmem2
    have := (List.mem_filter.mp hmem2).2
    simp at this

/-- Witness for C8 at the one-column state. -/
theorem c8_removeColumn_purges_witness :
    ("a" ∈ c8State.columns.map fun c => c.id) ∧
    (("a" ∉ (removeColumn c8State "a").columns.map fun c => c.id) ∧
    "a" ∉ (removeColumn c8State "a").columnOrder ∧
    (∀ p ∈ (removeColumn c8State "a").columnWidths, p.1 ≠ "a") ∧
    "a" ∉ (removeColumn c8State "a").lockedLeft ∧
    "a" ∉ (removeColumn c8State "a").lockedRight ∧
    "a" ∉ (removeColumn c8State "a").hiddenColumns) :=
  ⟨by decide, c8_removeColumn_purges c8State "a" (by decide)⟩

/-- C9: when parsing throws (the input is not valid JSON), `importState`
returns the state exactly unchanged — no partial update is possible, since
`JSON.parse` runs before any signal assignment. -/
theorem c9_importState_invalid_json (parse : String → Option ImportedState)
    (stateJson : String) (st : ObservableState)
    (hfail : parse stateJson = none) :
    importState parse stateJson st = st := by
  unfold importState
  rw [hfail]

/-- Witness for C9 with a parser that rejects every input (as `JSON.parse`
does on malformed text). -/
theorem c9_importState_invalid_json_witness :
    ((fun _ : String => (none : Option ImportedState)) "not json" = none) ∧
    importState (fun _ => none) "not json" c9State = c9State :=
  ⟨rfl, c9_importState_invalid_json (fun _ => none) "not json" c9State rfl⟩

end NgGrid
